import Mathlib

/-!
Shallow embedding of the ratatui-elm main loop (src/src/lib.rs) and of the
backend device-mode handling (src/src/backend/*.rs).

The main loop `App::run_inner` is embedded as a function over an explicit
schedule of select outcomes: the nondeterministic `futures::select!` between
the message channel receiver and the backend event stream is externalised as
a list of `SelectOut` values, one per await.  Each processed iteration emits
a list of observable effects (`handle_resize`, the `update` call, task
spawning, `terminal.draw`) so that temporal claims become statements about
the emitted trace.  Draw failures (I/O errors from `terminal.draw`) are
modelled by an oracle `drawOk : Nat -> Bool` indexed by the draw counter.
-/

namespace RatatuiElm

/-- The `Task<T>` enum of src/src/lib.rs (lines 113-124): a directive
returned by the updater.  `perform` carries the value that the spawned
future will eventually produce; `none` is ignored; `quit` breaks out of the
main loop. -/
inductive Task (M : Type) where
  | perform (result : M)
  | none
  | quit
deriving DecidableEq, Repr

/-- The `Update<M, E>` enum of src/src/lib.rs: the tagged Update-Input fed
to the updater, either a terminal event or a user message. -/
inductive Update (M E : Type) where
  | terminal (e : E)
  | message (m : M)
deriving DecidableEq, Repr

/-- Outcome of one `futures::select!` await in the main loop
(src/src/lib.rs lines 299-310): either the channel receiver yielded a
message (`msg`), the receiver reported closure (`rxClosed`, the
`None => break` arm), or the event stream yielded `Some(Ok(e))` (`ev`),
`Some(Err(_))` (`evErr`) or `None` (`evEnd`; the last two both hit the
`_ => break` arm). -/
inductive SelectOut (M E : Type) where
  | msg (m : M)
  | rxClosed
  | ev (e : E)
  | evErr
  | evEnd
deriving DecidableEq, Repr

/-- Observable effects emitted by the loop body, in program order:
`draw` is a call to `terminal.draw`, `handleResize` a call to
`backend_mut().handle_resize`, `update` an invocation of the updater on the
given Update-Input, `spawn` the detached spawning of a `Task::Perform`
future. -/
inductive Eff (M E : Type) where
  | draw
  | handleResize (width height : Nat)
  | update (u : Update M E)
  | spawn (result : M)
deriving DecidableEq, Repr

/-- How `run_inner` left the loop: via the channel-closed break arm, via the
event-stream ended/errored break arm, via `Task::Quit`, via a failed
`terminal.draw` (the `?` operator), or not at all yet (schedule exhausted
while the loop is still awaiting input). -/
inductive Exit where
  | rxClosed
  | eventEnded
  | quit
  | drawErr
  | pending
deriving DecidableEq, Repr

/-- Result of one executed loop iteration: fall through to the next
iteration (recording whether this iteration drew), break out because the
updater returned `Task::Quit`, or abort because `terminal.draw` failed. -/
inductive IterRes where
  | next (drew : Bool)
  | quitBrk
  | drawFail
deriving DecidableEq, Repr

/-- The `resize` binding of src/src/lib.rs lines 311-315: `Event::resize`
is consulted only for terminal events, never for messages. -/
def resizeOf {M E : Type} (eresize : E → Option (Nat × Nat)) :
    Update M E → Option (Nat × Nat)
  | Update.terminal e => eresize e
  | Update.message _ => Option.none

/-- Effects of src/src/lib.rs lines 316-318: `handle_resize` is called
exactly when the resize data is present. -/
def resizeEffsOf {M E : Type} : Option (Nat × Nat) → List (Eff M E)
  | Option.some (w, h) => [Eff.handleResize w h]
  | Option.none => []

/-- Effects emitted after the updater call, per src/src/lib.rs lines
322-331: a `Task::Perform` future is spawned, then, unless the task was
`Quit` (which `break`s first), `terminal.draw` is called when
`should_render` holds. -/
def afterUpdateEffs {M E : Type} : Task M → Bool → List (Eff M E)
  | Task.perform r, true => [Eff.spawn r, Eff.draw]
  | Task.perform r, false => [Eff.spawn r]
  | Task.none, true => [Eff.draw]
  | Task.none, false => []
  | Task.quit, _ => []

/-- Control outcome of the iteration tail (src/src/lib.rs lines 322-331):
`Quit` breaks before the render check; otherwise the draw happens iff
`should_render`, and a failed draw aborts with the I/O error. -/
def iterExitRes {M : Type} : Task M → Bool → Bool → IterRes
  | Task.quit, _, _ => IterRes.quitBrk
  | Task.perform _, true, ok => if ok then IterRes.next true else IterRes.drawFail
  | Task.perform _, false, _ => IterRes.next false
  | Task.none, true, ok => if ok then IterRes.next true else IterRes.drawFail
  | Task.none, false, _ => IterRes.next false

/-- One iteration of the main loop after the select produced an
Update-Input `u` (src/src/lib.rs lines 311-331).  Returns the emitted
effects in program order, the updated state, and the control outcome.
`should_render` is `resize.is_some() || out.1` exactly as on line 321. -/
def iterBody {State M E : Type}
    (upd : State → Update M E → State × Task M × Bool)
    (eresize : E → Option (Nat × Nat)) (drawOk : Nat → Bool)
    (s : State) (k : Nat) (u : Update M E) :
    List (Eff M E) × State × IterRes :=
  let resize := resizeOf eresize u
  let out := upd s u
  let shouldRender := resize.isSome || out.2.2
  (resizeEffsOf resize ++ Eff.update u :: afterUpdateEffs out.2.1 shouldRender,
    out.1,
    iterExitRes out.2.1 shouldRender (drawOk k))

/-- The two select arms that produce an Update-Input: `Some(message)`
becomes `Update::Message`, `Some(Ok(e))` becomes `Update::Terminal`
(src/src/lib.rs lines 299-310). -/
def toInput {M E : Type} : SelectOut M E → Option (Update M E)
  | SelectOut.msg m => Option.some (Update.message m)
  | SelectOut.ev e => Option.some (Update.terminal e)
  | SelectOut.rxClosed => Option.none
  | SelectOut.evErr => Option.none
  | SelectOut.evEnd => Option.none

/-- Which exit the break arms produce: `rx.next() == None` breaks out of
the loop (modelled as `Exit.rxClosed`), and both `Some(Err(_))` and `None`
from the event stream hit the same `_ => break` arm
(modelled as `Exit.eventEnded`). -/
def breakExit {M E : Type} : SelectOut M E → Exit
  | SelectOut.rxClosed => Exit.rxClosed
  | _ => Exit.eventEnded

/-- The `loop { ... }` of src/src/lib.rs lines 298-332, driven by the
schedule of select outcomes.  `k` is the index of the next draw in the
`drawOk` oracle.  Returns the concatenated effect trace and the exit. -/
def runLoop {State M E : Type}
    (upd : State → Update M E → State × Task M × Bool)
    (eresize : E → Option (Nat × Nat)) (drawOk : Nat → Bool) :
    State → Nat → List (SelectOut M E) → List (Eff M E) × Exit
  | _, _, [] => ([], Exit.pending)
  | s, k, inp :: rest =>
    match toInput inp with
    | Option.none => ([], breakExit inp)
    | Option.some u =>
      let r := iterBody upd eresize drawOk s k u
      match r.2.2 with
      | IterRes.quitBrk => (r.1, Exit.quit)
      | IterRes.drawFail => (r.1, Exit.drawErr)
      | IterRes.next drew =>
        let t := runLoop upd eresize drawOk r.2.1
          (k + if drew then 1 else 0) rest
        (r.1 ++ t.1, t.2)

/-- `App::run_inner` (src/src/lib.rs lines 288-335): after spawning the
subscription aggregator it performs one unconditional initial draw (line
297, draw index 0) and then enters the loop.  A failed initial draw aborts
via `?` before any input is processed. -/
def run_inner {State M E : Type}
    (upd : State → Update M E → State × Task M × Bool)
    (eresize : E → Option (Nat × Nat)) (drawOk : Nat → Bool)
    (s0 : State) (sched : List (SelectOut M E)) : List (Eff M E) × Exit :=
  if drawOk 0 then
    let t := runLoop upd eresize drawOk s0 1 sched
    (Eff.draw :: t.1, t.2)
  else
    ([Eff.draw], Exit.drawErr)

/-- Whether an effect is an updater invocation. -/
def isUpdateEff {M E : Type} : Eff M E → Bool
  | Eff.update _ => true
  | _ => false

/-- Whether an effect is a `terminal.draw` call. -/
def isDrawEff {M E : Type} : Eff M E → Bool
  | Eff.draw => true
  | _ => false

/-- Number of draw calls occurring in a trace strictly before the first
updater invocation. -/
def drawsBeforeFirstUpdate {M E : Type} (t : List (Eff M E)) : Nat :=
  (t.takeWhile (fun e => !(isUpdateEff e))).countP (fun e => isDrawEff e)

/-- How `self.executor.clone().block_on(self.run_inner(terminal))` ended:
normally with `Ok`, with an `Err` propagated out of the loop, or by a
panic unwinding out of user code (updater or viewer). -/
inductive InnerOutcome where
  | ok
  | err
  | panicked
deriving DecidableEq, Repr

/-- Number of times `Backend::restore` runs for one call of `App::run`
(src/src/lib.rs lines 281-286).  The body is
`B::init(); let res = block_on(run_inner); B::restore(); res`: on `Ok` and
`Err` results the statement `B::restore()` runs exactly once; a panic
unwinds past that statement, so restore runs during the unwind only when
the backend registered a panic hook at `init` time that calls it
(ratatui's hook for crossterm, the hook installed in
src/src/backend/termwiz.rs lines 28-32 for termwiz; termion installs
none). -/
def restoreCalls (panicHookInstalled : Bool) : InnerOutcome → Nat
  | InnerOutcome.ok => 1
  | InnerOutcome.err => 1
  | InnerOutcome.panicked => if panicHookInstalled then 1 else 0

/-- State of the unbounded mpsc message channel created by
`R::unbounded_channel()` (the `byor` runtime channels wrap the standard
tokio / futures / smol unbounded mpsc channels): a FIFO queue of buffered
messages, the number of live sender handles, and whether the receiver is
still alive. -/
structure ChanState (M : Type) where
  queue : List M
  senders : Nat
  receiverAlive : Bool
deriving DecidableEq, Repr

/-- Result of `UnboundedSender::send`: the standard unbounded channels
return `Ok(())` while the receiver is alive (the send is enqueued without
blocking) and `Err(SendError)` once the receiver has been dropped. -/
inductive SendRes where
  | sent
  | errClosed
deriving DecidableEq, Repr

/-- `tx.send(m)` on the unbounded channel: succeeds and enqueues while the
receiver is alive, returns the closed error otherwise. -/
def ChanState.send {M : Type} (c : ChanState M) (m : M) :
    SendRes × ChanState M :=
  if c.receiverAlive then
    (SendRes.sent, ChanState.mk (c.queue ++ [m]) c.senders c.receiverAlive)
  else
    (SendRes.errClosed, c)

/-- Result of one poll of `rx.next()` on the unbounded channel receiver. -/
inductive RecvRes (M : Type) where
  | item (m : M)
  | closed
  | pend
deriving DecidableEq, Repr

/-- `rx.next()` semantics of the standard unbounded mpsc receivers: a
buffered message is yielded first; with an empty buffer the receiver
reports closure (`None`) only once every sender handle has been dropped,
and otherwise stays pending. -/
def ChanState.recv {M : Type} (c : ChanState M) : RecvRes M × ChanState M :=
  match c.queue with
  | m :: q => (RecvRes.item m, ChanState.mk q c.senders c.receiverAlive)
  | [] =>
    if c.senders = 0 then (RecvRes.closed, c) else (RecvRes.pend, c)

/-- Outcome of a detached producer task: it either completed, or panicked
(an `unwrap()` on a failed send unwinds the task). -/
inductive TaskOutcome where
  | completed
  | panicked
deriving DecidableEq, Repr

/-- `TaskFutExt::run` (src/src/lib.rs lines 133-141): awaits the future
and then executes `tx.send(self.await).unwrap()`.  The unwrap panics the
sending task when the send returns the closed error. -/
def taskFutRun {M : Type} (c : ChanState M) (result : M) :
    TaskOutcome × ChanState M :=
  match c.send result with
  | (SendRes.sent, c2) => (TaskOutcome.completed, c2)
  | (SendRes.errClosed, c2) => (TaskOutcome.panicked, c2)

/-- One forwarding step of the subscription aggregator spawned in
`App::run_inner` (src/src/lib.rs lines 289-296): it executes
`subscriptions_tx.send(message).unwrap()` for each message produced by the
merged subscriptions, so a failed send panics the aggregator task. -/
def forwardSubscriptionMessage {M : Type} (c : ChanState M) (message : M) :
    TaskOutcome × ChanState M :=
  match c.send message with
  | (SendRes.sent, c2) => (TaskOutcome.completed, c2)
  | (SendRes.errClosed, c2) => (TaskOutcome.panicked, c2)

/-- Terminal device modes toggled by backend `init` / `restore`: raw input
mode and the alternate screen buffer. -/
structure DeviceMode where
  rawMode : Bool
  altScreen : Bool
deriving DecidableEq, Repr

/-- `Backend::init` for `TermionBackend`
(src/src/backend/termion.rs lines 40-47): `into_raw_mode` then
`into_alternate_screen` on stdout. -/
def termionInit (_ : DeviceMode) : DeviceMode := DeviceMode.mk true true

/-- `Backend::restore` for `TermionBackend`
(src/src/backend/termion.rs line 49): the body is empty, so the device
mode is left exactly as it was. -/
def termionRestore (d : DeviceMode) : DeviceMode := d

/-- Termion `init` registers no panic hook
(src/src/backend/termion.rs lines 40-47). -/
def termionInstallsPanicHook : Bool := false

/-- `Backend::init` for `TermwizBackend`
(src/src/backend/termwiz.rs lines 27-36): `TermwizBackend::new()` enters
raw mode and the alternate screen. -/
def termwizInit (_ : DeviceMode) : DeviceMode := DeviceMode.mk true true

/-- `Backend::restore` for `TermwizBackend`
(src/src/backend/termwiz.rs lines 38-52): `exit_alternate_screen` then
`set_cooked_mode` on a fresh terminal handle (failures are only printed). -/
def termwizRestore (_ : DeviceMode) : DeviceMode := DeviceMode.mk false false

/-- Termwiz `init` installs a panic hook that calls `restore` before
delegating to the previous hook (src/src/backend/termwiz.rs lines 28-32). -/
def termwizInstallsPanicHook : Bool := true

/-- `Backend::init` for `CrosstermBackend`
(src/src/backend/crossterm.rs lines 14-16) calls `ratatui::init()`, which
per its documentation enables raw mode and enters the alternate screen. -/
def crosstermInit (_ : DeviceMode) : DeviceMode := DeviceMode.mk true true

/-- `Backend::restore` for `CrosstermBackend`
(src/src/backend/crossterm.rs lines 18-20) calls `ratatui::restore()`,
which per its documentation disables raw mode and leaves the alternate
screen. -/
def crosstermRestore (_ : DeviceMode) : DeviceMode := DeviceMode.mk false false

/-- `ratatui::init()` (used by the crossterm backend) installs a panic hook
that restores the terminal, per its documentation. -/
def crosstermInstallsPanicHook : Bool := true

/-- Concrete updater used in witnesses and counterexamples: always returns
`Task::Quit` with `should_render = true`. -/
def quitTrue (s : Nat) (_ : Update Nat Nat) : Nat × Task Nat × Bool :=
  (s, Task.quit, true)

/-- Concrete updater used in counterexamples: always returns `Task::Quit`
with `should_render = false`. -/
def quitFalse (s : Nat) (_ : Update Nat Nat) : Nat × Task Nat × Bool :=
  (s, Task.quit, false)

/-- Concrete resize detector that never reports a resize. -/
def noResize (_ : Nat) : Option (Nat × Nat) := Option.none

/-- Concrete resize detector reporting dimensions (80, 24) for every
event. -/
def resize80 (_ : Nat) : Option (Nat × Nat) := Option.some (80, 24)

/-- Concrete resize detector reporting dimensions (100, 50) for every
event. -/
def resize100 (_ : Nat) : Option (Nat × Nat) := Option.some (100, 50)

/-- Concrete draw oracle: every draw succeeds. -/
def alwaysDrawOk (_ : Nat) : Bool := true

/-- Concrete updater used in witnesses: always returns `Task::None` with
`should_render = false`. -/
def noneFalse (s : Nat) (_ : Update Nat Nat) : Nat × Task Nat × Bool :=
  (s, Task.none, false)

/-- Concrete updater used in counterexamples: always returns `Task::None`
with `should_render = true`. -/
def noneTrue (s : Nat) (_ : Update Nat Nat) : Nat × Task Nat × Bool :=
  (s, Task.none, true)

/-- Concrete draw oracle: every draw fails with an I/O error. -/
def neverDrawOk (_ : Nat) : Bool := false

/-- A draw call never appears among the `handle_resize` effects. -/
theorem draw_not_mem_resizeEffs {M E : Type} (r : Option (Nat × Nat)) :
    (Eff.draw : Eff M E) ∉ resizeEffsOf r := by
  cases r with
  | none => simp [resizeEffsOf]
  | some wh => cases wh with
    | mk w h => simp [resizeEffsOf]

/-- A draw call appears in the post-update effects of an iteration exactly
when `should_render` holds and the returned task is not `Quit`. -/
theorem draw_mem_afterUpdateEffs {M E : Type} (task : Task M) (sr : Bool) :
    (Eff.draw : Eff M E) ∈ afterUpdateEffs task sr ↔
      (sr = true ∧ task ≠ Task.quit) := by
  cases task <;> cases sr <;> simp [afterUpdateEffs]

/-- Claim C1, counterexample to the claim as stated.  With an updater that
returns `(Task::Quit, should_render = true)` on a non-resize message, the
claimed iff demands a draw after the iteration, but `Task::Quit` breaks
out of the loop before the render check: the iteration emits no draw at
all. -/
theorem c1_counterexample :
    (quitTrue 0 (Update.message 0)).2.2 = true ∧
    (resizeOf noResize (Update.message (0 : Nat))).isSome = false ∧
    (runLoop quitTrue noResize alwaysDrawOk 0 1 [SelectOut.msg 0]).1.countP
      (fun e => isDrawEff e) = 0 ∧
    (runLoop quitTrue noResize alwaysDrawOk 0 1 [SelectOut.msg 0]).2 =
      Exit.quit := by
  decide

/-- Claim C1, amended: in every executed loop iteration, a draw call is
emitted by that iteration iff (`resize_detected` or `should_render`) and
the task returned by the updater is not `Task::Quit` (a `Quit` breaks out
of the loop before the render check on src/src/lib.rs line 329). -/
theorem c1_draw_iff_render_and_not_quit {State M E : Type}
    (upd : State → Update M E → State × Task M × Bool)
    (eresize : E → Option (Nat × Nat)) (drawOk : Nat → Bool)
    (s : State) (k : Nat) (u : Update M E) :
    Eff.draw ∈ (iterBody upd eresize drawOk s k u).1 ↔
      (((resizeOf eresize u).isSome || (upd s u).2.2) = true ∧
        (upd s u).2.1 ≠ Task.quit) := by
  simp [iterBody, List.mem_append, draw_mem_afterUpdateEffs,
    draw_not_mem_resizeEffs _]

/-- Claim C2, counterexample to the claim as stated.  A resize iteration
(resize detected, so the render decision is positive) in which the updater
returns `Task::Quit` exits the loop with zero draw calls: the render
decision is not honored before the loop exits. -/
theorem c2_counterexample :
    (resizeOf resize80 (Update.terminal 0 : Update Nat Nat)).isSome = true ∧
    (runLoop quitFalse resize80 alwaysDrawOk 0 1 [SelectOut.ev 0]).2 =
      Exit.quit ∧
    (runLoop quitFalse resize80 alwaysDrawOk 0 1 [SelectOut.ev 0]).1.countP
      (fun e => isDrawEff e) = 0 := by
  decide

/-- Claim C2, amended: when the updater returns `Task::Quit`, the loop
terminates immediately after that update call; the render decision is not
honored — the iteration emits nothing after the update call (in particular
no draw), whatever `resize_detected` and `should_render` are. -/
theorem c2_quit_skips_render {State M E : Type}
    (upd : State → Update M E → State × Task M × Bool)
    (eresize : E → Option (Nat × Nat)) (drawOk : Nat → Bool)
    (s : State) (k : Nat) (u : Update M E)
    (hq : (upd s u).2.1 = Task.quit) :
    (iterBody upd eresize drawOk s k u).1 =
      resizeEffsOf (resizeOf eresize u) ++ [Eff.update u] ∧
    Eff.draw ∉ (iterBody upd eresize drawOk s k u).1 ∧
    (iterBody upd eresize drawOk s k u).2.2 = IterRes.quitBrk := by
  refine ⟨?_, ?_, ?_⟩ <;>
    simp [iterBody, hq, afterUpdateEffs, iterExitRes, List.mem_append,
      draw_not_mem_resizeEffs _]

/-- Claim C2, witness for the amended theorem at a concrete input. -/
theorem c2_quit_skips_render_witness :
    (iterBody quitFalse resize80 alwaysDrawOk 0 1
        (Update.terminal 0)).1 =
      resizeEffsOf (resizeOf resize80 (Update.terminal 0 : Update Nat Nat)) ++
        [Eff.update (Update.terminal 0)] ∧
    Eff.draw ∉ (iterBody quitFalse resize80 alwaysDrawOk 0 1
      (Update.terminal 0)).1 ∧
    (iterBody quitFalse resize80 alwaysDrawOk 0 1
      (Update.terminal 0)).2.2 = IterRes.quitBrk :=
  c2_quit_skips_render quitFalse resize80 alwaysDrawOk 0 1
    (Update.terminal 0) rfl

/-- Claim C5, counterexample to the claim as stated.  On a resize event
whose iteration returns `Task::Quit` (even with `should_render = true`),
no draw follows the iteration: the claimed unconditional draw after a
resize does not hold. -/
theorem c5_counterexample :
    (resizeOf resize100 (Update.terminal 0 : Update Nat Nat)).isSome = true ∧
    (runLoop quitTrue resize100 alwaysDrawOk 0 1 [SelectOut.ev 0]).1.countP
      (fun e => isDrawEff e) = 0 ∧
    (runLoop quitTrue resize100 alwaysDrawOk 0 1 [SelectOut.ev 0]).2 =
      Exit.quit := by
  decide

/-- Claim C5, amended: on a terminal event carrying resize data `(w, h)`,
the iteration calls `handle_resize(w, h)` immediately before invoking the
updater on that event, and — provided the updater does not return
`Task::Quit` — a draw follows the iteration regardless of the
`should_render` value the updater returns. -/
theorem c5_resize_forces_handle_resize_and_draw {State M E : Type}
    (upd : State → Update M E → State × Task M × Bool)
    (eresize : E → Option (Nat × Nat)) (drawOk : Nat → Bool)
    (s : State) (k : Nat) (e : E) (w h : Nat)
    (hr : eresize e = Option.some (w, h)) :
    (∃ tail, (iterBody upd eresize drawOk s k (Update.terminal e)).1 =
      Eff.handleResize w h :: Eff.update (Update.terminal e) :: tail) ∧
    ((upd s (Update.terminal e)).2.1 ≠ Task.quit →
      Eff.draw ∈ (iterBody upd eresize drawOk s k (Update.terminal e)).1) := by
  constructor
  · exact ⟨afterUpdateEffs (upd s (Update.terminal e)).2.1 true,
      by simp [iterBody, resizeOf, hr, resizeEffsOf]⟩
  · intro hq
    simp [iterBody, resizeOf, hr, resizeEffsOf, List.mem_append,
      draw_mem_afterUpdateEffs, hq]

/-- Claim C5, witness for the amended theorem at a concrete input. -/
theorem c5_resize_forces_handle_resize_and_draw_witness :
    (∃ tail, (iterBody noneFalse resize80 alwaysDrawOk 0 1
        (Update.terminal 0)).1 =
      Eff.handleResize 80 24 :: Eff.update (Update.terminal 0) :: tail) ∧
    ((noneFalse 0 (Update.terminal 0)).2.1 ≠ Task.quit →
      Eff.draw ∈ (iterBody noneFalse resize80 alwaysDrawOk 0 1
        (Update.terminal 0)).1) :=
  c5_resize_forces_handle_resize_and_draw noneFalse resize80 alwaysDrawOk
    0 1 0 80 24 rfl

/-- Claim C3: when the updater returns `Task::Quit`, the loop exits with
the quit exit, the trace from that iteration on contains no draw call at
all (nothing is emitted after the update invocation), and
`Backend::restore` runs exactly once for the enclosing `App::run` call,
whose inner future completed normally. -/
theorem c3_quit_terminates_no_draw_restore_once {State M E : Type}
    (upd : State → Update M E → State × Task M × Bool)
    (eresize : E → Option (Nat × Nat)) (drawOk : Nat → Bool)
    (s : State) (k : Nat) (inp : SelectOut M E)
    (rest : List (SelectOut M E)) (u : Update M E) (hook : Bool)
    (hin : toInput inp = Option.some u)
    (hq : (upd s u).2.1 = Task.quit) :
    (runLoop upd eresize drawOk s k (inp :: rest)).2 = Exit.quit ∧
    Eff.draw ∉ (runLoop upd eresize drawOk s k (inp :: rest)).1 ∧
    restoreCalls hook InnerOutcome.ok = 1 := by
  have h2 : (iterBody upd eresize drawOk s k u).2.2 = IterRes.quitBrk := by
    simp [iterBody, hq, iterExitRes]
  have h1 : (iterBody upd eresize drawOk s k u).1 =
      resizeEffsOf (resizeOf eresize u) ++ [Eff.update u] := by
    simp [iterBody, hq, afterUpdateEffs]
  refine ⟨?_, ?_, rfl⟩ <;>
    simp [runLoop, hin, h2, h1, List.mem_append, draw_not_mem_resizeEffs _]

/-- Claim C3, witness at a concrete input. -/
theorem c3_quit_terminates_no_draw_restore_once_witness :
    (runLoop quitTrue noResize alwaysDrawOk 0 1 [SelectOut.msg 0]).2 =
      Exit.quit ∧
    Eff.draw ∉ (runLoop quitTrue noResize alwaysDrawOk 0 1
      [SelectOut.msg 0]).1 ∧
    restoreCalls false InnerOutcome.ok = 1 :=
  c3_quit_terminates_no_draw_restore_once quitTrue noResize alwaysDrawOk
    0 1 (SelectOut.msg 0) [] (Update.message 0) false rfl rfl

/-- A trace consisting of the resize effects of one iteration followed by
the update invocation contains no draw call before its first update
invocation. -/
theorem drawsBefore_resize_update_prefix {M E : Type}
    (r : Option (Nat × Nat)) (u : Update M E) (l : List (Eff M E)) :
    drawsBeforeFirstUpdate (resizeEffsOf r ++ Eff.update u :: l) = 0 := by
  cases r with
  | none =>
    simp [resizeEffsOf, drawsBeforeFirstUpdate, List.takeWhile, isUpdateEff]
  | some wh =>
    cases wh with
    | mk w h =>
      simp [resizeEffsOf, drawsBeforeFirstUpdate, List.takeWhile,
        isUpdateEff, isDrawEff, List.countP, List.countP.go]

/-- The loop trace never contains a draw call before its first update
invocation: every draw emitted inside the loop is preceded in the same
iteration by the update call. -/
theorem runLoop_no_draw_before_first_update {State M E : Type}
    (upd : State → Update M E → State × Task M × Bool)
    (eresize : E → Option (Nat × Nat)) (drawOk : Nat → Bool)
    (s : State) (k : Nat) (sched : List (SelectOut M E)) :
    drawsBeforeFirstUpdate (runLoop upd eresize drawOk s k sched).1 = 0 := by
  cases sched with
  | nil => simp [runLoop, drawsBeforeFirstUpdate]
  | cons inp rest =>
    cases hin : toInput (M := M) (E := E) inp with
    | none => simp [runLoop, hin, drawsBeforeFirstUpdate]
    | some u =>
      simp only [runLoop, hin]
      rcases hr : (iterBody upd eresize drawOk s k u).2.2 with drew | _ | _ <;>
        simp only [hr] <;>
        simp [iterBody, List.append_assoc, List.cons_append,
          drawsBefore_resize_update_prefix]

/-- Prepending a draw call to a trace adds one to the number of draws
before the first update invocation. -/
theorem drawsBeforeFirstUpdate_draw_cons {M E : Type} (t : List (Eff M E)) :
    drawsBeforeFirstUpdate (Eff.draw :: t) = drawsBeforeFirstUpdate t + 1 := by
  simp [drawsBeforeFirstUpdate, List.takeWhile, isUpdateEff, isDrawEff,
    List.countP_cons]

/-- Claim C4: in every run, `run_inner` performs exactly one draw (the
unconditional initial draw of the initial state) before the first
Update-Input is handed to the updater. -/
theorem c4_one_draw_before_first_input {State M E : Type}
    (upd : State → Update M E → State × Task M × Bool)
    (eresize : E → Option (Nat × Nat)) (drawOk : Nat → Bool)
    (s0 : State) (sched : List (SelectOut M E)) :
    drawsBeforeFirstUpdate (run_inner upd eresize drawOk s0 sched).1 = 1 := by
  by_cases h0 : drawOk 0
  · have hl := runLoop_no_draw_before_first_update upd eresize drawOk s0 1 sched
    have h1 : (run_inner upd eresize drawOk s0 sched).1 =
        Eff.draw :: (runLoop upd eresize drawOk s0 1 sched).1 := by
      simp [run_inner, h0]
    rw [h1, drawsBeforeFirstUpdate_draw_cons, hl]
  · have h1 : (run_inner upd eresize drawOk s0 sched).1 = [Eff.draw] := by
      simp [run_inner, h0]
    rw [h1, drawsBeforeFirstUpdate_draw_cons]
    simp [drawsBeforeFirstUpdate]

/-- Claim C6, counterexample to the claim as stated.  The termion backend
registers no panic hook at `init` time and `App::run` calls `B::restore()`
only on the straight-line path after `block_on`, so when the inner future
panics, `restore` is never invoked — not exactly once. -/
theorem c6_counterexample :
    restoreCalls termionInstallsPanicHook InnerOutcome.panicked = 0 := by
  decide

/-- Claim C6, amended: after a successful `init`, `restore` runs exactly
once when the loop returns normally and when it returns an error
(including a draw I/O error); on a panic it runs exactly once only for
backends whose `init` registered a panic hook (crossterm via
`ratatui::init`, termwiz), and not at all for termion. -/
theorem c6_restore_once_except_unhooked_panic (hook : Bool) :
    restoreCalls hook InnerOutcome.ok = 1 ∧
    restoreCalls hook InnerOutcome.err = 1 ∧
    restoreCalls crosstermInstallsPanicHook InnerOutcome.panicked = 1 ∧
    restoreCalls termwizInstallsPanicHook InnerOutcome.panicked = 1 ∧
    restoreCalls termionInstallsPanicHook InnerOutcome.panicked = 0 := by
  cases hook <;> exact ⟨rfl, rfl, rfl, rfl, rfl⟩

/-- Claim C7, counterexample to the claim as stated.  Termion `init` puts
the device into raw mode and the alternate screen, but termion `restore`
has an empty body: calling it after `init` leaves both mode changes in
place instead of undoing them. -/
theorem c7_counterexample :
    termionRestore (termionInit (DeviceMode.mk false false)) =
      DeviceMode.mk true true := by
  decide

/-- Claim C7, amended: the crossterm and termwiz `restore` implementations
unconditionally clear raw mode and leave the alternate screen, and both of
those backends register a panic hook at `init` time that invokes
`restore`; the termion `restore` is a no-op that leaves the device mode
unchanged, and termion registers no panic hook. -/
theorem c7_restore_per_backend (d : DeviceMode) :
    crosstermRestore d = DeviceMode.mk false false ∧
    termwizRestore d = DeviceMode.mk false false ∧
    termionRestore d = d ∧
    crosstermInstallsPanicHook = true ∧
    termwizInstallsPanicHook = true ∧
    termionInstallsPanicHook = false :=
  ⟨rfl, rfl, rfl, rfl, rfl, rfl⟩

/-- Claim C8: when the event stream yields an item that resolves to an
error, the loop breaks immediately — the iteration emits no effects at all
(in particular the updater is not invoked for that item) — and the result
is literally the same as when the event stream terminates, whatever inputs
would have followed. -/
theorem c8_event_error_is_stream_end {State M E : Type}
    (upd : State → Update M E → State × Task M × Bool)
    (eresize : E → Option (Nat × Nat)) (drawOk : Nat → Bool)
    (s : State) (k : Nat) (rest rest2 : List (SelectOut M E)) :
    runLoop upd eresize drawOk s k (SelectOut.evErr :: rest) =
      ([], Exit.eventEnded) ∧
    runLoop upd eresize drawOk s k (SelectOut.evErr :: rest) =
      runLoop upd eresize drawOk s k (SelectOut.evEnd :: rest2) := by
  constructor <;> simp [runLoop, toInput, breakExit]

/-- Claim C9, counterexample to the claim as stated.  `TaskFutExt::run`
executes `tx.send(self.await).unwrap()`: once the receiver has been
dropped the send returns an error and the unwrap panics the sending task —
it is not a harmless no-op. -/
theorem c9_counterexample :
    (taskFutRun (ChanState.mk ([] : List Nat) 0 false) 7).1 =
      TaskOutcome.panicked := by
  decide

/-- Claim C9, amended: while the receiver is alive, a send from a
completed task or from the subscription aggregator succeeds and enqueues
the message; after the consumer has shut down (receiver dropped), the send
fails and the surrounding `unwrap()` panics the sending task. -/
theorem c9_send_after_shutdown_panics {M : Type} (c : ChanState M) (m : M) :
    (taskFutRun c m).1 =
      (if c.receiverAlive then TaskOutcome.completed
        else TaskOutcome.panicked) ∧
    (forwardSubscriptionMessage c m).1 =
      (if c.receiverAlive then TaskOutcome.completed
        else TaskOutcome.panicked) ∧
    (taskFutRun c m).2.queue =
      (if c.receiverAlive then c.queue ++ [m] else c.queue) := by
  by_cases hr : c.receiverAlive <;>
    simp [taskFutRun, forwardSubscriptionMessage, ChanState.send, hr]

/-- If the channel-closed select outcome never occurs in the schedule, the
loop never exits through the channel-closed break arm. -/
theorem runLoop_no_rxClosed_exit {State M E : Type}
    (upd : State → Update M E → State × Task M × Bool)
    (eresize : E → Option (Nat × Nat)) (drawOk : Nat → Bool) :
    ∀ (sched : List (SelectOut M E)) (s : State) (k : Nat),
      SelectOut.rxClosed ∉ sched →
      (runLoop upd eresize drawOk s k sched).2 ≠ Exit.rxClosed := by
  intro sched
  induction sched with
  | nil => intro s k _; simp [runLoop]
  | cons inp rest ih =>
    intro s k hs
    have hs2 : (SelectOut.rxClosed : SelectOut M E) ∉ rest :=
      fun h => hs (List.mem_cons_of_mem _ h)
    cases inp with
    | rxClosed => exact absurd (List.mem_cons_self _ _) hs
    | evErr => simp [runLoop, toInput, breakExit]
    | evEnd => simp [runLoop, toInput, breakExit]
    | msg m =>
      simp only [runLoop, toInput]
      rcases hr :
          (iterBody upd eresize drawOk s k (Update.message m)).2.2 with
        drew | _ | _ <;> simp only [hr] <;> simp
      exact ih _ _ hs2
    | ev e =>
      simp only [runLoop, toInput]
      rcases hr :
          (iterBody upd eresize drawOk s k (Update.terminal e)).2.2 with
        drew | _ | _ <;> simp only [hr] <;> simp
      exact ih _ _ hs2

/-- Claim C10, counterexample to the claim as stated.  A run in which the
channel-closed outcome never occurs (the App retains its sender) can still
terminate through neither `Task::Quit` nor the event stream: an updater
that requests a render combined with a failing `terminal.draw` makes the
loop exit through the propagated draw I/O error
(src/src/lib.rs line 330), an exit cause the claim excludes. -/
theorem c10_counterexample :
    (SelectOut.rxClosed : SelectOut Nat Nat) ∉ [SelectOut.msg 0] ∧
    (runLoop noneTrue noResize neverDrawOk 0 1 [SelectOut.msg 0]).2 =
      Exit.drawErr ∧
    (runLoop noneTrue noResize neverDrawOk 0 1 [SelectOut.msg 0]).2 ≠
      Exit.quit ∧
    (runLoop noneTrue noResize neverDrawOk 0 1 [SelectOut.msg 0]).2 ≠
      Exit.eventEnded := by
  decide

/-- Claim C10, amended: while the loop runs, the App retains its own
sender handle `self.tx`, so the channel has at least one live sender, and
with a live sender `rx.next()` never reports closure; hence the
channel-closed select outcome is unrealizable and every run either exits
via `Task::Quit`, via the event stream ending or yielding an error, or via
an I/O error propagated from `terminal.draw` — or has not terminated and
is still awaiting input.  It never exits through the channel-closed break
arm. -/
theorem c10_retained_sender_exit_cases {State M E : Type}
    (upd : State → Update M E → State × Task M × Bool)
    (eresize : E → Option (Nat × Nat)) (drawOk : Nat → Bool)
    (s : State) (k : Nat) (c : ChanState M)
    (sched : List (SelectOut M E))
    (hc : 1 ≤ c.senders) (hs : SelectOut.rxClosed ∉ sched) :
    (c.recv).1 ≠ RecvRes.closed ∧
    ((runLoop upd eresize drawOk s k sched).2 = Exit.quit ∨
      (runLoop upd eresize drawOk s k sched).2 = Exit.eventEnded ∨
      (runLoop upd eresize drawOk s k sched).2 = Exit.drawErr ∨
      (runLoop upd eresize drawOk s k sched).2 = Exit.pending) := by
  constructor
  · rcases c with ⟨q, sn, ra⟩
    cases q with
    | nil =>
      have hsn : sn ≠ 0 := by
        simpa using Nat.pos_iff_ne_zero.mp hc
      simp [ChanState.recv, hsn]
    | cons a q => simp [ChanState.recv]
  · have hne := runLoop_no_rxClosed_exit upd eresize drawOk sched s k hs
    rcases hE : (runLoop upd eresize drawOk s k sched).2 with _ | _ | _ | _ | _
    · exact absurd hE hne
    all_goals simp [hE]

/-- Claim C10, witness at a concrete input. -/
theorem c10_retained_sender_exit_cases_witness :
    ((ChanState.mk ([] : List Nat) 1 true).recv).1 ≠ RecvRes.closed ∧
    ((runLoop quitTrue noResize alwaysDrawOk 0 1
        [SelectOut.evEnd]).2 = Exit.quit ∨
      (runLoop quitTrue noResize alwaysDrawOk 0 1
        [SelectOut.evEnd]).2 = Exit.eventEnded ∨
      (runLoop quitTrue noResize alwaysDrawOk 0 1
        [SelectOut.evEnd]).2 = Exit.drawErr ∨
      (runLoop quitTrue noResize alwaysDrawOk 0 1
        [SelectOut.evEnd]).2 = Exit.pending) :=
  c10_retained_sender_exit_cases quitTrue noResize alwaysDrawOk 0 1
    (ChanState.mk [] 1 true) [SelectOut.evEnd] (by decide) (by decide)

end RatatuiElm
